import Mathlib

/-!
Shallow embedding of the chaincode invocation tasks of the fabric-examples
fabric-cli: the commit-awaiting invoke task (package `invoketask`) and the
query task (package `querytask`).  External nondeterminism (the result of
`ExecuteTxWithOpts`, the commit-status notification or its timeout, and the
success of `Executor.SubmitDelayed`) is supplied as explicit inputs; the
callback invocations performed by `Invoke` are collected as data rather
than executed.
-/

namespace FabricCli

/-- The transaction validation codes of the fabric peer protos
(`pb.TxValidationCode`), as imported by `invoketask`. -/
inductive TxValidationCode where
  | VALID
  | NIL_ENVELOPE
  | BAD_PAYLOAD
  | BAD_COMMON_HEADER
  | BAD_CREATOR_SIGNATURE
  | INVALID_ENDORSER_TRANSACTION
  | INVALID_CONFIG_TRANSACTION
  | UNSUPPORTED_TX_PAYLOAD
  | BAD_PROPOSAL_TXID
  | DUPLICATE_TXID
  | ENDORSEMENT_POLICY_FAILURE
  | MVCC_READ_CONFLICT
  | PHANTOM_READ_CONFLICT
  | UNKNOWN_TX_TYPE
  | TARGET_CHAIN_NOT_FOUND
  | MARSHAL_TX_ERROR
  | NIL_TXACTION
  | EXPIRED_CHAINCODE
  | CHAINCODE_VERSION_CONFLICT
  | BAD_HEADER_EXTENSION
  | BAD_CHANNEL_HEADER
  | BAD_RESPONSE_PAYLOAD
  | BAD_RWSET
  | ILLEGAL_WRITESET
  | INVALID_WRITESET
  | INVALID_OTHER_REASON
  deriving DecidableEq

/-- The textual rendering of a validation code (the Go `%s` of the enum). -/
def TxValidationCode.name : TxValidationCode → String
  | .VALID => "VALID"
  | .NIL_ENVELOPE => "NIL_ENVELOPE"
  | .BAD_PAYLOAD => "BAD_PAYLOAD"
  | .BAD_COMMON_HEADER => "BAD_COMMON_HEADER"
  | .BAD_CREATOR_SIGNATURE => "BAD_CREATOR_SIGNATURE"
  | .INVALID_ENDORSER_TRANSACTION => "INVALID_ENDORSER_TRANSACTION"
  | .INVALID_CONFIG_TRANSACTION => "INVALID_CONFIG_TRANSACTION"
  | .UNSUPPORTED_TX_PAYLOAD => "UNSUPPORTED_TX_PAYLOAD"
  | .BAD_PROPOSAL_TXID => "BAD_PROPOSAL_TXID"
  | .DUPLICATE_TXID => "DUPLICATE_TXID"
  | .ENDORSEMENT_POLICY_FAILURE => "ENDORSEMENT_POLICY_FAILURE"
  | .MVCC_READ_CONFLICT => "MVCC_READ_CONFLICT"
  | .PHANTOM_READ_CONFLICT => "PHANTOM_READ_CONFLICT"
  | .UNKNOWN_TX_TYPE => "UNKNOWN_TX_TYPE"
  | .TARGET_CHAIN_NOT_FOUND => "TARGET_CHAIN_NOT_FOUND"
  | .MARSHAL_TX_ERROR => "MARSHAL_TX_ERROR"
  | .NIL_TXACTION => "NIL_TXACTION"
  | .EXPIRED_CHAINCODE => "EXPIRED_CHAINCODE"
  | .CHAINCODE_VERSION_CONFLICT => "CHAINCODE_VERSION_CONFLICT"
  | .BAD_HEADER_EXTENSION => "BAD_HEADER_EXTENSION"
  | .BAD_CHANNEL_HEADER => "BAD_CHANNEL_HEADER"
  | .BAD_RESPONSE_PAYLOAD => "BAD_RESPONSE_PAYLOAD"
  | .BAD_RWSET => "BAD_RWSET"
  | .ILLEGAL_WRITESET => "ILLEGAL_WRITESET"
  | .INVALID_WRITESET => "INVALID_WRITESET"
  | .INVALID_OTHER_REASON => "INVALID_OTHER_REASON"

/-- Modelled from the spec: the classification codes of the `invokeerror`
package (the package itself is not among the provided sources; §7 of the
spec gives the taxonomy: TransientError, PersistentError, TimeoutOnCommit,
mutually exclusive). -/
inductive InvokeErrorCode where
  | TransientError
  | PersistentError
  | TimeoutOnCommit
  deriving DecidableEq

/-- A Go `error` value as seen by this code: either an `invokeerror.Error`
(modelled from the spec: a tagged error carrying a classification code, a
message, and an optional wrapped cause, as built by `invokeerror.Errorf` /
`invokeerror.Wrapf`), or some other error value (e.g. one produced by the
SDK client), which does not implement `invokeerror.Error`. -/
inductive GoError where
  | invokeErr (code : InvokeErrorCode) (msg : String) (cause : Option String)
  | generic (msg : String)
  deriving DecidableEq

/-- The message of a Go error (its `%v` rendering). -/
def GoError.message : GoError → String
  | .invokeErr _ m _ => m
  | .generic m => m

/-- The classification code of an optional error, when it is an
`invokeerror.Error`. -/
def errCodeOf : Option GoError → Option InvokeErrorCode
  | some (.invokeErr c _ _) => some c
  | _ => none

namespace invoketask

/-- The outcome of one attempt, i.e. what the external world does with the
call made by `doInvoke`: either `ExecuteTxWithOpts` itself returns an
error, or it returns a transaction id and a commit-status notification with
a validation code (and optional embedded error) arrives on the channel, or
it returns a transaction id and the timeout elapses first. -/
inductive AttemptOutcome where
  | submitError (e : GoError)
  | notification (txnID : String) (code : TxValidationCode) (emb : Option String)
  | timeout (txnID : String)
  deriving DecidableEq

/-- The invoke `Task` of package `invoketask`.  External handles (executor,
channel client, printer, callback function) are opaque to this code and are
represented by identifiers; they are never invoked directly in the
embedding (callback invocations are collected as data by `Invoke`). -/
structure Task where
  executorId : String
  channelClientId : String
  id : String
  ccID : String
  argsFunc : String
  argsArgs : List String
  maxAttempts : Int
  resubmitDelay : Int
  attempt : Int
  lastErr : Option GoError
  callbackId : String
  verbose : Bool
  printerId : String
  txID : String
  deriving DecidableEq

/-- `invoketask.New`: a fresh task starts at attempt 1 with no recorded
error and no transaction id. -/
def Task.New (id : String) (channelClientId ccID : String)
    (argsFunc : String) (argsArgs : List String) (executorId : String)
    (maxAttempts resubmitDelay : Int) (verbose : Bool)
    (printerId callbackId : String) : Task :=
  { id := id
    channelClientId := channelClientId
    printerId := printerId
    ccID := ccID
    argsFunc := argsFunc
    argsArgs := argsArgs
    executorId := executorId
    maxAttempts := maxAttempts
    callbackId := callbackId
    attempt := 1
    resubmitDelay := resubmitDelay
    verbose := verbose
    lastErr := none
    txID := "" }

/-- `Task.Attempts`: the number of invocation attempts that were made. -/
def Task.Attempts (t : Task) : Int :=
  t.attempt

/-- `Task.LastError`: the last error that was recorded. -/
def Task.LastError (t : Task) : Option GoError :=
  t.lastErr

/-- `Task.doInvoke`: submit the transaction and wait for the commit-status
notification or the timeout, classifying the result.  Returns the updated
task (Go mutates the receiver's `txID` field) together with the returned
error (`none` for a nil error). -/
def Task.doInvoke (t : Task) (o : AttemptOutcome) : Task × Option GoError :=
  match o with
  | .submitError e =>
      (t, some (.invokeErr .TransientError
        ("SendTransactionProposal return error: " ++ e.message) none))
  | .notification txnID code emb =>
      let t1 := { t with txID := txnID }
      match code with
      | .VALID => (t1, none)
      | .DUPLICATE_TXID | .MVCC_READ_CONFLICT | .PHANTOM_READ_CONFLICT =>
          (t1, some (.invokeErr .TransientError
            ("invoke Error received from eventhub for TxID [" ++ txnID ++
              "]. Code: " ++ code.name) emb))
      | _ =>
          (t1, some (.invokeErr .PersistentError
            ("invoke Error received from eventhub for TxID [" ++ txnID ++
              "]. Code: " ++ code.name) emb))
  | .timeout txnID =>
      ({ t with txID := txnID },
        some (.invokeErr .TimeoutOnCommit
          ("timed out waiting to receive block event for TxID [" ++ txnID ++ "]") none))

/-- What one call to `Invoke` does after `doInvoke` returns: terminate the
task (callback invoked), request a delayed resubmission, halt with the
scheduling failure logged only, or crash on the failed type assertion. -/
inductive StepControl where
  | done
  | resched
  | halt
  | crashed
  deriving DecidableEq

/-- The observable result of one call to `Invoke`: the task state after the
call, the callback invocations it performed (each with its argument,
`none` being a nil error), and the control outcome. -/
structure StepOut where
  task : Task
  calls : List (Option GoError)
  control : StepControl
  deriving DecidableEq

/-- `Task.Invoke` (one call): run `doInvoke` for the given attempt outcome;
on a nil error invoke the callback with nil; otherwise record the error,
assert it to `invokeerror.Error` (a crash if it is not one), and dispatch
on its code: a TransientError with attempts remaining increments the
attempt counter and asks the executor for a delayed resubmission
(`scheduleOk` is whether `SubmitDelayed` returned nil; on failure the error
is only logged and the call returns); every other path falls through to the
callback with the error. -/
def Task.Invoke (t : Task) (o : AttemptOutcome) (scheduleOk : Bool) : StepOut :=
  match t.doInvoke o with
  | (t1, some err) =>
      let t2 := { t1 with lastErr := some err }
      match err with
      | .generic _ => { task := t2, calls := [], control := .crashed }
      | .invokeErr code _ _ =>
          match code with
          | .TransientError =>
              if t2.attempt < t2.maxAttempts then
                let t3 := { t2 with attempt := t2.attempt + 1 }
                if scheduleOk then
                  { task := t3, calls := [], control := .resched }
                else
                  { task := t3, calls := [], control := .halt }
              else
                { task := t2, calls := [some err], control := .done }
          | .TimeoutOnCommit =>
              { task := t2, calls := [some err], control := .done }
          | .PersistentError =>
              { task := t2, calls := [some err], control := .done }
  | (t1, none) =>
      { task := t1, calls := [none], control := .done }

/-- How a whole retry sequence ended: the callback fired (`completedRun`),
the scheduling of a resubmission failed and the task is orphaned
(`orphanedRun`), the type assertion failed (`crashedRun`), or the supplied
list of attempt outcomes ran out while a resubmission was still pending
(`starvedRun`). -/
inductive RunStatus where
  | completedRun
  | orphanedRun
  | crashedRun
  | starvedRun
  deriving DecidableEq

/-- The observable result of a whole retry sequence. -/
structure RunOut where
  task : Task
  calls : List (Option GoError)
  status : RunStatus
  deriving DecidableEq

/-- The retry sequence of a task: `Invoke` is called with the first attempt
outcome; whenever it requests a delayed resubmission the executor
re-invokes the task with the next outcome.  The i-th list element gives
the i-th attempt's outcome and whether `SubmitDelayed` would succeed at
the end of that attempt (the flag is only consulted when a resubmission is
actually requested). -/
def Task.run : Task → List (AttemptOutcome × Bool) → RunOut
  | t, [] => { task := t, calls := [], status := .starvedRun }
  | t, (o, ok) :: rest =>
      let s := t.Invoke o ok
      match s.control with
      | .done => { task := s.task, calls := s.calls, status := .completedRun }
      | .resched =>
          let r := s.task.run rest
          { task := r.task, calls := s.calls ++ r.calls, status := r.status }
      | .halt => { task := s.task, calls := s.calls, status := .orphanedRun }
      | .crashed => { task := s.task, calls := s.calls, status := .crashedRun }

/-- The error a given attempt outcome is classified to (it does not depend
on the task state). -/
def outcomeErr : AttemptOutcome → Option GoError
  | .submitError e =>
      some (.invokeErr .TransientError
        ("SendTransactionProposal return error: " ++ e.message) none)
  | .notification txnID code emb =>
      match code with
      | .VALID => none
      | .DUPLICATE_TXID | .MVCC_READ_CONFLICT | .PHANTOM_READ_CONFLICT =>
          some (.invokeErr .TransientError
            ("invoke Error received from eventhub for TxID [" ++ txnID ++
              "]. Code: " ++ code.name) emb)
      | _ =>
          some (.invokeErr .PersistentError
            ("invoke Error received from eventhub for TxID [" ++ txnID ++
              "]. Code: " ++ code.name) emb)
  | .timeout txnID =>
      some (.invokeErr .TimeoutOnCommit
        ("timed out waiting to receive block event for TxID [" ++ txnID ++ "]") none)

/-- The classification code of an attempt outcome. -/
def outcomeCode (o : AttemptOutcome) : Option InvokeErrorCode :=
  errCodeOf (outcomeErr o)

/-- The transaction id recorded on the task by an attempt (unchanged when
submission itself fails). -/
def txAfter (t : Task) : AttemptOutcome → String
  | .submitError _ => t.txID
  | .notification txnID _ _ => txnID
  | .timeout txnID => txnID

/-- A concrete invoke task as built by `New`: retry policy of 3 attempts
with a 10ms resubmission delay. -/
def sampleTask : Task :=
  Task.New "task1" "client1" "mycc" "put" ["key1", "val1"] "exec1" 3 10 false
    "printer1" "cb1"

end invoketask

namespace querytask

/-- The process-wide configuration consulted by the query task
(`cliconfig.Config()`): the chaincode id and the timeout. -/
structure Config where
  chaincodeID : String
  timeout : Int
  deriving DecidableEq

/-- The query `Task` of package `querytask`.  External handles (channel
client, printer, callback function) are represented by identifiers. -/
structure Task where
  channelClientId : String
  id : String
  argsFunc : String
  argsArgs : List String
  callbackId : String
  printerId : String
  verbose : Bool
  deriving DecidableEq

/-- `querytask.New`. -/
def Task.New (id : String) (channelClientId : String) (argsFunc : String)
    (argsArgs : List String) (printerId : String) (verbose : Bool)
    (callbackId : String) : Task :=
  { id := id
    channelClientId := channelClientId
    argsFunc := argsFunc
    argsArgs := argsArgs
    callbackId := callbackId
    printerId := printerId
    verbose := verbose }

/-- The request handed to `QueryWithOpts`. -/
structure QueryRequest where
  chaincodeID : String
  fcn : String
  args : List String
  deriving DecidableEq

/-- An observable event of the query task: a submission via
`QueryWithOpts`, or a callback invocation with its argument. -/
inductive QEvent where
  | querySubmitted (req : QueryRequest)
  | callbackCalled (arg : Option GoError)
  deriving DecidableEq

/-- `querytask.Task.Invoke`: submit the query (chaincode id from global
configuration, function and arguments from the task) and invoke the
callback with the returned error, nil on success.  `queryResult` is the
error returned by the blocking `QueryWithOpts` call (`none` for nil). -/
def Task.Invoke (cfg : Config) (t : Task) (queryResult : Option GoError) :
    List QEvent :=
  let req : QueryRequest :=
    { chaincodeID := cfg.chaincodeID, fcn := t.argsFunc, args := t.argsArgs }
  match queryResult with
  | some err => [.querySubmitted req, .callbackCalled (some err)]
  | none => [.querySubmitted req, .callbackCalled none]

/-- The arguments of the callback invocations among a list of events. -/
def callbackArgs (es : List QEvent) : List (Option GoError) :=
  es.filterMap fun e =>
    match e with
    | .callbackCalled a => some a
    | _ => none

/-- The number of submissions among a list of events. -/
def submitCount (es : List QEvent) : Nat :=
  (es.filter fun e =>
    match e with
    | .querySubmitted _ => true
    | _ => false).length

end querytask

namespace invoketask

/-- `doInvoke` records the transaction id and returns the classified error
of the attempt outcome. -/
lemma Task.doInvoke_eq (t : Task) (o : AttemptOutcome) :
    t.doInvoke o = ({ t with txID := txAfter t o }, outcomeErr o) := by
  cases o with
  | submitError e => rfl
  | notification txnID code emb => cases code <;> rfl
  | timeout txnID => rfl

/-- The classified error of an outcome is never a non-`invokeerror` error. -/
lemma outcomeErr_not_generic (o : AttemptOutcome) (m : String) :
    outcomeErr o ≠ some (.generic m) := by
  cases o with
  | submitError e => simp [outcomeErr]
  | notification txnID code emb => cases code <;> simp [outcomeErr]
  | timeout txnID => simp [outcomeErr]

/-- An outcome classifies as transient exactly when its error is a
TransientError `invokeerror.Error`. -/
lemma outcomeCode_transient (o : AttemptOutcome)
    (h : outcomeCode o = some .TransientError) :
    ∃ m c, outcomeErr o = some (.invokeErr .TransientError m c) := by
  cases he : outcomeErr o with
  | none => simp [outcomeCode, he, errCodeOf] at h
  | some e =>
      cases e with
      | invokeErr c m cause =>
          simp only [outcomeCode, he, errCodeOf, Option.some.injEq] at h
          exact ⟨m, cause, by rw [h]⟩
      | generic m => exact absurd he (outcomeErr_not_generic o m)

/-- A successful attempt (`doInvoke` returned nil) invokes the callback
once with nil and terminates. -/
lemma Task.Invoke_success (t : Task) (o : AttemptOutcome) (ok : Bool)
    (h : outcomeErr o = none) :
    t.Invoke o ok =
      { task := { t with txID := txAfter t o }, calls := [none], control := .done } := by
  simp only [Task.Invoke, Task.doInvoke_eq, h]

/-- A transient failure with attempts remaining invokes no callback,
increments the attempt counter, and either reschedules or (on a
`SubmitDelayed` failure) halts orphaned. -/
lemma Task.Invoke_transient_retry (t : Task) (o : AttemptOutcome)
    (h1 : outcomeCode o = some .TransientError)
    (h2 : t.attempt < t.maxAttempts) :
    t.Invoke o true =
      { task := { t with
                  txID := txAfter t o
                  lastErr := outcomeErr o
                  attempt := t.attempt + 1 }
        calls := []
        control := .resched } := by
  obtain ⟨m, c, he⟩ := outcomeCode_transient o h1
  simp [Task.Invoke, Task.doInvoke_eq, he, h2]

/-- A transient failure with attempts remaining whose `SubmitDelayed` call
fails invokes no callback and halts with the failure logged only: the task
is orphaned. -/
lemma Task.Invoke_transient_orphan (t : Task) (o : AttemptOutcome)
    (h1 : outcomeCode o = some .TransientError)
    (h2 : t.attempt < t.maxAttempts) :
    t.Invoke o false =
      { task := { t with
                  txID := txAfter t o
                  lastErr := outcomeErr o
                  attempt := t.attempt + 1 }
        calls := []
        control := .halt } := by
  obtain ⟨m, c, he⟩ := outcomeCode_transient o h1
  simp [Task.Invoke, Task.doInvoke_eq, he, h2]

/-- A transient failure with attempts exhausted invokes the callback once
with the classified error and terminates, leaving the counter unchanged. -/
lemma Task.Invoke_transient_exhaust (t : Task) (o : AttemptOutcome) (ok : Bool)
    (h1 : outcomeCode o = some .TransientError)
    (h2 : ¬t.attempt < t.maxAttempts) :
    t.Invoke o ok =
      { task := { t with txID := txAfter t o, lastErr := outcomeErr o }
        calls := [outcomeErr o]
        control := .done } := by
  obtain ⟨m, c, he⟩ := outcomeCode_transient o h1
  simp [Task.Invoke, Task.doInvoke_eq, he, h2]

/-- A persistent failure or a commit timeout invokes the callback once with
the classified error and terminates, leaving the counter unchanged. -/
lemma Task.Invoke_terminal (t : Task) (o : AttemptOutcome) (ok : Bool)
    (h1 : outcomeCode o = some .PersistentError ∨
          outcomeCode o = some .TimeoutOnCommit) :
    t.Invoke o ok =
      { task := { t with txID := txAfter t o, lastErr := outcomeErr o }
        calls := [outcomeErr o]
        control := .done } := by
  cases he : outcomeErr o with
  | none => simp [outcomeCode, he, errCodeOf] at h1
  | some e =>
      cases e with
      | generic m => exact absurd he (outcomeErr_not_generic o m)
      | invokeErr c m cause =>
          simp only [outcomeCode, he, errCodeOf, Option.some.injEq] at h1
          rcases h1 with h1 | h1 <;> subst h1 <;>
            simp [Task.Invoke, Task.doInvoke_eq, he]

/-- One call to `Invoke` performs exactly one callback invocation when it
terminates the task, and none otherwise. -/
lemma Task.Invoke_calls (t : Task) (o : AttemptOutcome) (ok : Bool) :
    ((t.Invoke o ok).control = .done → (t.Invoke o ok).calls.length = 1) ∧
    ((t.Invoke o ok).control ≠ .done → (t.Invoke o ok).calls = []) := by
  simp only [Task.Invoke, Task.doInvoke_eq]
  cases outcomeErr o with
  | none => simp
  | some e =>
      cases e with
      | generic m => simp
      | invokeErr c m cause =>
          cases c <;> by_cases hl : t.attempt < t.maxAttempts <;>
            cases ok <;> simp [hl]

/-- One call to `Invoke` never crashes: the type assertion at the top of
the failure branch always succeeds. -/
lemma Task.Invoke_not_crashed (t : Task) (o : AttemptOutcome) (ok : Bool) :
    (t.Invoke o ok).control ≠ .crashed := by
  simp only [Task.Invoke, Task.doInvoke_eq]
  cases he : outcomeErr o with
  | none => simp
  | some e =>
      cases e with
      | generic m => exact absurd he (outcomeErr_not_generic o m)
      | invokeErr c m cause =>
          cases c <;> by_cases hl : t.attempt < t.maxAttempts <;>
            cases ok <;> simp [hl]

/-- Across a whole retry sequence, a completed run performs exactly one
callback invocation and an orphaned run performs none. -/
lemma Task.run_calls (t : Task) (os : List (AttemptOutcome × Bool)) :
    ((t.run os).status = .completedRun → (t.run os).calls.length = 1) ∧
    ((t.run os).status = .orphanedRun → (t.run os).calls = []) := by
  induction os generalizing t with
  | nil => simp [Task.run]
  | cons p rest ih =>
      obtain ⟨o, ok⟩ := p
      have hcalls := Task.Invoke_calls t o ok
      cases hc : (t.Invoke o ok).control with
      | done =>
          simp only [Task.run, hc]
          exact ⟨fun _ => hcalls.1 hc, by simp⟩
      | resched =>
          have h0 : (t.Invoke o ok).calls = [] := hcalls.2 (by simp [hc])
          simp only [Task.run, hc, h0]
          simpa using ih ((t.Invoke o ok).task)
      | halt =>
          have h0 : (t.Invoke o ok).calls = [] := hcalls.2 (by simp [hc])
          simp only [Task.run, hc, h0]
          simp
      | crashed =>
          simp only [Task.run, hc]
          simp

/-- A whole retry sequence never crashes. -/
lemma Task.run_not_crashed (t : Task) (os : List (AttemptOutcome × Bool)) :
    (t.run os).status ≠ .crashedRun := by
  induction os generalizing t with
  | nil => simp [Task.run]
  | cons p rest ih =>
      obtain ⟨o, ok⟩ := p
      cases hc : (t.Invoke o ok).control with
      | done => simp [Task.run, hc]
      | resched =>
          simp only [Task.run, hc]
          simpa using ih ((t.Invoke o ok).task)
      | halt => simp [Task.run, hc]
      | crashed => exact absurd hc (Task.Invoke_not_crashed t o ok)

/-- Running a task on a transient prefix (every outcome transient, every
scheduling successful, enough attempts remaining) reaches the continuation
with the attempt counter advanced by the prefix length, no callback
invocations so far, and the retry policy unchanged. -/
lemma Task.run_transient_prefix (os tail : List (AttemptOutcome × Bool)) :
    ∀ t : Task,
    (∀ p ∈ os, outcomeCode p.1 = some InvokeErrorCode.TransientError ∧ p.2 = true) →
    t.attempt + os.length ≤ t.maxAttempts →
    ∃ t' : Task, t.run (os ++ tail) = t'.run tail ∧
      t'.attempt = t.attempt + os.length ∧ t'.maxAttempts = t.maxAttempts := by
  induction os with
  | nil => exact fun t _ _ => ⟨t, by simp, by simp, rfl⟩
  | cons p rest ih =>
      intro t hall hle
      obtain ⟨o, ok⟩ := p
      have h1 := hall (o, ok) (by simp)
      have hok : ok = true := h1.2
      subst hok
      have hlt : t.attempt < t.maxAttempts := by
        simp only [List.length_cons] at hle
        push_cast at hle
        omega
      have hstep := Task.Invoke_transient_retry t o h1.1 hlt
      have hrest :
          ∀ p ∈ rest, outcomeCode p.1 = some InvokeErrorCode.TransientError ∧ p.2 = true :=
        fun p hp => hall p (List.mem_cons_of_mem _ hp)
      obtain ⟨t', ht'run, ht'att, ht'max⟩ :=
        ih ((t.Invoke o true).task) hrest (by
          rw [hstep]
          simp only [List.length_cons] at hle ⊢
          push_cast at hle ⊢
          omega)
      refine ⟨t', ?_, ?_, ?_⟩
      · have hstepped : t.run ((o, true) :: (rest ++ tail)) =
            ((t.Invoke o true).task).run (rest ++ tail) := by
          simp only [Task.run, hstep]
          cases h : ((t.Invoke o true).task).run (rest ++ tail)
          simp [hstep]
        rw [List.cons_append, hstepped, ht'run]
      · rw [ht'att, hstep]
        simp only [List.length_cons]
        push_cast
        ring
      · rw [ht'max, hstep]

/-- Claim C2: a commit-status notification is classified by its validation
code exactly as: VALID yields success (nil error); DUPLICATE_TXID,
MVCC_READ_CONFLICT and PHANTOM_READ_CONFLICT each yield a TransientError;
every other validation code yields a PersistentError. -/
theorem C2_classification (t : Task) (txnID : String) (code : TxValidationCode)
    (emb : Option String) :
    (code = .VALID → (t.doInvoke (.notification txnID code emb)).2 = none) ∧
    ((code = .DUPLICATE_TXID ∨ code = .MVCC_READ_CONFLICT ∨
        code = .PHANTOM_READ_CONFLICT) →
      errCodeOf (t.doInvoke (.notification txnID code emb)).2 =
        some InvokeErrorCode.TransientError) ∧
    (code ≠ .VALID ∧ code ≠ .DUPLICATE_TXID ∧ code ≠ .MVCC_READ_CONFLICT ∧
        code ≠ .PHANTOM_READ_CONFLICT →
      errCodeOf (t.doInvoke (.notification txnID code emb)).2 =
        some InvokeErrorCode.PersistentError) := by
  cases code <;> simp [Task.doInvoke, errCodeOf]

/-- Witness for C2 at a concrete notification: an MVCC read conflict
classifies as a TransientError. -/
theorem C2_classification_witness :
    errCodeOf (sampleTask.doInvoke
        (.notification "tx1" .MVCC_READ_CONFLICT none)).2 =
      some InvokeErrorCode.TransientError :=
  (C2_classification sampleTask "tx1" .MVCC_READ_CONFLICT none).2.1
    (Or.inr (Or.inl rfl))

/-- Claim C1 (amended): the completion callback fires exactly once across
the retry sequence of every run that terminates by invoking the callback;
attempts whose transient failure triggers a resubmission invoke no
callback; and a run ended by a resubmission-scheduling failure invokes the
callback zero times (the invoker is orphaned), not once. -/
theorem C1_callback_once_unless_orphaned (t : Task)
    (os : List (AttemptOutcome × Bool)) (o : AttemptOutcome) (b : Bool) :
    ((t.Invoke o b).control = .resched → (t.Invoke o b).calls = []) ∧
    ((t.run os).status = .completedRun → (t.run os).calls.length = 1) ∧
    ((t.run os).status = .orphanedRun → (t.run os).calls = []) :=
  ⟨fun h => (Task.Invoke_calls t o b).2 (by simp [h]),
   (Task.run_calls t os).1, (Task.run_calls t os).2⟩

/-- Witness for the amended C1: a run that commits on the first attempt
invokes the callback exactly once. -/
theorem C1_callback_once_witness :
    (sampleTask.run [(.notification "tx1" .VALID none, true)]).calls.length = 1 :=
  (C1_callback_once_unless_orphaned sampleTask
      [(.notification "tx1" .VALID none, true)]
      (.notification "tx1" .VALID none) true).2.1 (by decide)

/-- Counterexample to C1 as stated: when the first attempt fails
transiently with attempts remaining and the scheduling of the resubmission
itself fails, the run ends with zero callback invocations, not one. -/
theorem C1_counterexample :
    (sampleTask.run [(.submitError (.generic "connection refused"), false)]).status =
        .orphanedRun ∧
    ¬(sampleTask.run
        [(.submitError (.generic "connection refused"), false)]).calls.length = 1 := by
  decide

/-- Claim C3: with maxAttempts = N and N consecutive transient failures
(each resubmission successfully scheduled), the callback is invoked exactly
once, with the transient error classified from the final attempt's outcome,
and `Attempts()` afterwards returns N. -/
theorem C3_exhausted_transient (t : Task) (os : List (AttemptOutcome × Bool))
    (o : AttemptOutcome) (b : Bool)
    (h1 : t.attempt = 1)
    (h2 : (os.length : Int) + 1 = t.maxAttempts)
    (h3 : ∀ p ∈ os, outcomeCode p.1 = some InvokeErrorCode.TransientError ∧ p.2 = true)
    (h4 : outcomeCode o = some InvokeErrorCode.TransientError) :
    (t.run (os ++ [(o, b)])).status = .completedRun ∧
    (t.run (os ++ [(o, b)])).calls = [outcomeErr o] ∧
    (t.run (os ++ [(o, b)])).task.Attempts = t.maxAttempts := by
  obtain ⟨t', hrun, hatt, hmax⟩ :=
    Task.run_transient_prefix os [(o, b)] t h3 (by rw [h1]; omega)
  have hge : ¬t'.attempt < t'.maxAttempts := by rw [hatt, hmax, h1]; omega
  have hstep := Task.Invoke_transient_exhaust t' o b h4 hge
  rw [hrun]
  simp only [Task.run, hstep]
  refine ⟨trivial, trivial, ?_⟩
  simp only [Task.Attempts]
  rw [hatt, hmax, h1] at *
  omega

/-- Witness for C3: maxAttempts = 3, two MVCC conflicts then a submission
failure, all transient; the callback receives the final transient error
and `Attempts()` is 3. -/
theorem C3_exhausted_transient_witness :
    (sampleTask.run
        [(.notification "tx1" .MVCC_READ_CONFLICT none, true),
         (.notification "tx2" .MVCC_READ_CONFLICT none, true),
         (.submitError (.generic "conn"), true)]).status = .completedRun ∧
    (sampleTask.run
        [(.notification "tx1" .MVCC_READ_CONFLICT none, true),
         (.notification "tx2" .MVCC_READ_CONFLICT none, true),
         (.submitError (.generic "conn"), true)]).calls =
      [outcomeErr (.submitError (.generic "conn"))] ∧
    (sampleTask.run
        [(.notification "tx1" .MVCC_READ_CONFLICT none, true),
         (.notification "tx2" .MVCC_READ_CONFLICT none, true),
         (.submitError (.generic "conn"), true)]).task.Attempts =
      sampleTask.maxAttempts :=
  C3_exhausted_transient sampleTask
    [(.notification "tx1" .MVCC_READ_CONFLICT none, true),
     (.notification "tx2" .MVCC_READ_CONFLICT none, true)]
    (.submitError (.generic "conn")) true
    (by decide) (by decide) (by decide) (by decide)

/-- Claim C4: with maxAttempts = N, N-1 transient failures (each
resubmission successfully scheduled) followed by a VALID commit invoke the
callback exactly once with nil, and `Attempts()` afterwards returns N. -/
theorem C4_transient_then_success (t : Task) (os : List (AttemptOutcome × Bool))
    (txnID : String) (emb : Option String) (b : Bool)
    (h1 : t.attempt = 1)
    (h2 : (os.length : Int) + 1 = t.maxAttempts)
    (h3 : ∀ p ∈ os, outcomeCode p.1 = some InvokeErrorCode.TransientError ∧ p.2 = true) :
    (t.run (os ++ [(.notification txnID .VALID emb, b)])).status = .completedRun ∧
    (t.run (os ++ [(.notification txnID .VALID emb, b)])).calls = [none] ∧
    (t.run (os ++ [(.notification txnID .VALID emb, b)])).task.Attempts =
      t.maxAttempts := by
  obtain ⟨t', hrun, hatt, hmax⟩ :=
    Task.run_transient_prefix os [(.notification txnID .VALID emb, b)] t h3
      (by rw [h1]; omega)
  have hstep :=
    Task.Invoke_success t' (.notification txnID .VALID emb) b rfl
  rw [hrun]
  simp only [Task.run, hstep]
  refine ⟨trivial, trivial, ?_⟩
  simp only [Task.Attempts]
  rw [hatt, hmax, h1] at *
  omega

/-- Witness for C4: maxAttempts = 3, two transient conflicts then a VALID
commit; the callback receives nil and `Attempts()` is 3. -/
theorem C4_transient_then_success_witness :
    (sampleTask.run
        [(.notification "tx1" .DUPLICATE_TXID none, true),
         (.notification "tx2" .PHANTOM_READ_CONFLICT none, true),
         (.notification "tx3" .VALID none, true)]).status = .completedRun ∧
    (sampleTask.run
        [(.notification "tx1" .DUPLICATE_TXID none, true),
         (.notification "tx2" .PHANTOM_READ_CONFLICT none, true),
         (.notification "tx3" .VALID none, true)]).calls = [none] ∧
    (sampleTask.run
        [(.notification "tx1" .DUPLICATE_TXID none, true),
         (.notification "tx2" .PHANTOM_READ_CONFLICT none, true),
         (.notification "tx3" .VALID none, true)]).task.Attempts =
      sampleTask.maxAttempts :=
  C4_transient_then_success sampleTask
    [(.notification "tx1" .DUPLICATE_TXID none, true),
     (.notification "tx2" .PHANTOM_READ_CONFLICT none, true)]
    "tx3" none true (by decide) (by decide) (by decide)

/-- Claim C5: a PersistentError or commit-wait timeout is never retried: a
single call to `Invoke` with such an outcome terminates (no resubmission is
scheduled), invokes the callback once with the classified error, and leaves
the attempt counter unchanged; on the first attempt, `Attempts()` stays 1. -/
theorem C5_terminal_no_retry (t : Task) (o : AttemptOutcome) (b : Bool)
    (h : outcomeCode o = some InvokeErrorCode.PersistentError ∨
         outcomeCode o = some InvokeErrorCode.TimeoutOnCommit) :
    (t.Invoke o b).control = .done ∧
    (t.Invoke o b).calls = [outcomeErr o] ∧
    (t.Invoke o b).task.attempt = t.attempt ∧
    (t.attempt = 1 → (t.Invoke o b).task.Attempts = 1) := by
  have hstep := Task.Invoke_terminal t o b h
  rw [hstep]
  exact ⟨rfl, rfl, rfl, fun h1 => by simp [Task.Attempts, h1]⟩

/-- Witness for C5: a timeout on the first attempt of a fresh task
terminates at once with `Attempts() = 1`. -/
theorem C5_terminal_no_retry_witness :
    (sampleTask.Invoke (.timeout "tx1") true).control = .done ∧
    (sampleTask.Invoke (.timeout "tx1") true).calls = [outcomeErr (.timeout "tx1")] ∧
    (sampleTask.Invoke (.timeout "tx1") true).task.attempt = sampleTask.attempt ∧
    (sampleTask.attempt = 1 →
      (sampleTask.Invoke (.timeout "tx1") true).task.Attempts = 1) :=
  C5_terminal_no_retry sampleTask (.timeout "tx1") true (Or.inr (by decide))

/-- Claim C6: when the submission call itself returns an error, the attempt
is classified as a TransientError, the task state is untouched (in
particular no transaction id is recorded), and no commit notification is
consulted (the outcome is decided by the submission error alone). -/
theorem C6_submit_error_transient (t : Task) (e : GoError) :
    (t.doInvoke (.submitError e)).1 = t ∧
    (t.doInvoke (.submitError e)).1.txID = t.txID ∧
    errCodeOf (t.doInvoke (.submitError e)).2 =
      some InvokeErrorCode.TransientError ∧
    (t.doInvoke (.submitError e)).2 =
      some (.invokeErr .TransientError
        ("SendTransactionProposal return error: " ++ e.message) none) :=
  ⟨rfl, rfl, rfl, rfl⟩

/-- Claim C7: when a transient failure with attempts remaining meets a
failing `SubmitDelayed`, the failure is only logged: the run ends orphaned
with no callback invocation, and no further attempt runs (the rest of the
outcome sequence is never consulted). -/
theorem C7_schedule_failure_orphans (t : Task) (o : AttemptOutcome)
    (rest : List (AttemptOutcome × Bool))
    (h1 : outcomeCode o = some InvokeErrorCode.TransientError)
    (h2 : t.attempt < t.maxAttempts) :
    (t.run ((o, false) :: rest)).status = .orphanedRun ∧
    (t.run ((o, false) :: rest)).calls = [] ∧
    t.run ((o, false) :: rest) = t.run [(o, false)] := by
  have hstep := Task.Invoke_transient_orphan t o h1 h2
  simp only [Task.run, hstep]
  exact ⟨trivial, trivial, trivial⟩

/-- Witness for C7: a first-attempt MVCC conflict whose resubmission fails
to schedule orphans the task with no callback. -/
theorem C7_schedule_failure_orphans_witness :
    (sampleTask.run [(.notification "tx1" .MVCC_READ_CONFLICT none, false),
        (.notification "tx2" .VALID none, true)]).status = .orphanedRun ∧
    (sampleTask.run [(.notification "tx1" .MVCC_READ_CONFLICT none, false),
        (.notification "tx2" .VALID none, true)]).calls = [] ∧
    sampleTask.run [(.notification "tx1" .MVCC_READ_CONFLICT none, false),
        (.notification "tx2" .VALID none, true)] =
      sampleTask.run [(.notification "tx1" .MVCC_READ_CONFLICT none, false)] :=
  C7_schedule_failure_orphans sampleTask (.notification "tx1" .MVCC_READ_CONFLICT none)
    [(.notification "tx2" .VALID none, true)] (by decide) (by decide)

/-- An outcome with no classification code is a success: `doInvoke`
returned nil for it. -/
lemma outcomeCode_eq_none (o : AttemptOutcome) (h : outcomeCode o = none) :
    outcomeErr o = none := by
  cases he : outcomeErr o with
  | none => rfl
  | some e =>
      cases e with
      | generic m => exact absurd he (outcomeErr_not_generic o m)
      | invokeErr c m cause => simp [outcomeCode, he, errCodeOf] at h

/-- Claim C9: one call to `Invoke` changes at most the attempt counter,
the last observed error and the transaction id: every other field of the
task (identifiers, arguments, retry policy, callback, verbose flag,
printer, executor) is unchanged, and the attempt counter is incremented
exactly when the outcome is transient with attempts remaining. -/
theorem C9_invoke_frame (t : Task) (o : AttemptOutcome) (b : Bool) :
    (t.Invoke o b).task.executorId = t.executorId ∧
    (t.Invoke o b).task.channelClientId = t.channelClientId ∧
    (t.Invoke o b).task.id = t.id ∧
    (t.Invoke o b).task.ccID = t.ccID ∧
    (t.Invoke o b).task.argsFunc = t.argsFunc ∧
    (t.Invoke o b).task.argsArgs = t.argsArgs ∧
    (t.Invoke o b).task.maxAttempts = t.maxAttempts ∧
    (t.Invoke o b).task.resubmitDelay = t.resubmitDelay ∧
    (t.Invoke o b).task.callbackId = t.callbackId ∧
    (t.Invoke o b).task.verbose = t.verbose ∧
    (t.Invoke o b).task.printerId = t.printerId ∧
    ((t.Invoke o b).task.attempt = t.attempt ∨
      (outcomeCode o = some InvokeErrorCode.TransientError ∧
        t.attempt < t.maxAttempts ∧
        (t.Invoke o b).task.attempt = t.attempt + 1)) := by
  cases hcode : outcomeCode o with
  | none =>
      rw [Task.Invoke_success t o b (outcomeCode_eq_none o hcode)]
      exact ⟨rfl, rfl, rfl, rfl, rfl, rfl, rfl, rfl, rfl, rfl, rfl, Or.inl rfl⟩
  | some c =>
      cases c with
      | TransientError =>
          by_cases hl : t.attempt < t.maxAttempts
          · cases b
            · rw [Task.Invoke_transient_orphan t o hcode hl]
              exact ⟨rfl, rfl, rfl, rfl, rfl, rfl, rfl, rfl, rfl, rfl, rfl,
                Or.inr ⟨rfl, hl, rfl⟩⟩
            · rw [Task.Invoke_transient_retry t o hcode hl]
              exact ⟨rfl, rfl, rfl, rfl, rfl, rfl, rfl, rfl, rfl, rfl, rfl,
                Or.inr ⟨rfl, hl, rfl⟩⟩
          · rw [Task.Invoke_transient_exhaust t o b hcode hl]
            exact ⟨rfl, rfl, rfl, rfl, rfl, rfl, rfl, rfl, rfl, rfl, rfl, Or.inl rfl⟩
      | PersistentError =>
          rw [Task.Invoke_terminal t o b (Or.inl hcode)]
          exact ⟨rfl, rfl, rfl, rfl, rfl, rfl, rfl, rfl, rfl, rfl, rfl, Or.inl rfl⟩
      | TimeoutOnCommit =>
          rw [Task.Invoke_terminal t o b (Or.inr hcode)]
          exact ⟨rfl, rfl, rfl, rfl, rfl, rfl, rfl, rfl, rfl, rfl, rfl, Or.inl rfl⟩

/-- Claim C10: every non-nil error returned by `doInvoke` is an
`invokeerror.Error` carrying a classification code, so the type assertion
at the top of `Invoke`'s failure branch always succeeds and no run ever
crashes on it. -/
theorem C10_doInvoke_invokeerror (t : Task) (o : AttemptOutcome)
    (os : List (AttemptOutcome × Bool)) :
    ((t.doInvoke o).2 = none ∨
      ∃ c msg cause, (t.doInvoke o).2 = some (GoError.invokeErr c msg cause)) ∧
    (t.run os).status ≠ .crashedRun := by
  refine ⟨?_, Task.run_not_crashed t os⟩
  rw [Task.doInvoke_eq]
  cases he : outcomeErr o with
  | none => exact Or.inl rfl
  | some e =>
      cases e with
      | generic m => exact absurd he (outcomeErr_not_generic o m)
      | invokeErr c msg cause => exact Or.inr ⟨c, msg, cause, rfl⟩

/-- Witness for C10 at a concrete timeout outcome and a concrete run. -/
theorem C10_doInvoke_invokeerror_witness :
    ((sampleTask.doInvoke (.timeout "tx9")).2 = none ∨
      ∃ c msg cause,
        (sampleTask.doInvoke (.timeout "tx9")).2 =
          some (GoError.invokeErr c msg cause)) ∧
    (sampleTask.run [(.notification "tx9" .VALID none, true)]).status ≠
      .crashedRun :=
  C10_doInvoke_invokeerror sampleTask (.timeout "tx9")
    [(.notification "tx9" .VALID none, true)]

end invoketask

namespace querytask

/-- Claim C8: a query invocation performs exactly one submission and
invokes the callback exactly once, with nil when the blocking query call
returns no error and with the call's error otherwise; there is no retry,
no attempt counter and no commit-wait phase. -/
theorem C8_query_single_submit_callback (cfg : Config) (t : Task)
    (queryResult : Option GoError) :
    submitCount (t.Invoke cfg queryResult) = 1 ∧
    callbackArgs (t.Invoke cfg queryResult) = [queryResult] := by
  cases queryResult <;> simp [Task.Invoke, submitCount, callbackArgs]

end querytask

end FabricCli
